import Mathlib

/-!
# CloudCostVisuals — verification of the scan / cost-attribution / trend pipeline

Shallow embedding of the multi-provider cloud scan aggregation pipeline:

* the provider adapters `fetchAWSAssetsAndCosts`, `fetchAzureAssetsAndCosts`
  and `fetchGCPAssetsAndCosts` (files `src/lib/connectors/*.ts`),
* the `AWSConnector` / `AzureConnector` classes (`src/lib/aws-connector.ts`,
  the Azure connector module),
* the persistence writer `saveScanResults` (`src/lib/connectors/save.ts`),
* the unified scan route `POST /api/scan` (`src/app/api/scan/route.ts`),
* the trend query `GET /api/scans/trends` (`src/app/api/scans/trends/route.ts`).

Vendor SDK responses (resource listings, billing rows) are opaque inputs: they
are modelled as explicit parameters, with a failed SDK call represented by an
`Except.error`.  JavaScript numbers are modelled as `ℚ`; JavaScript objects
used as string-keyed accumulators (`costByService`, `costByRegion`,
`assetCountByService`) are modelled as insertion-ordered association lists.
-/

/-! ## JavaScript-object accumulators (association lists) -/

/-- JS object lookup `m[k]`: `some v` when the key is present, else `none`. -/
def jsGet (m : List (String × ℚ)) (k : String) : Option ℚ :=
  (m.find? (fun p => p.1 == k)).map (·.2)

/-- `m[k] = (m[k] || 0) + v`: update the existing entry in place, or append a
new one (JS objects keep insertion order). -/
def jsAdd (m : List (String × ℚ)) (k : String) (v : ℚ) : List (String × ℚ) :=
  match m with
  | [] => [(k, v)]
  | (k', v') :: rest =>
    if k' == k then (k', v' + v) :: rest else (k', v') :: jsAdd rest k v

/-- Sum of the values of a JS-object accumulator. -/
def valuesSum (m : List (String × ℚ)) : ℚ :=
  (m.map (·.2)).sum

/-- Counter object: `m[k] = (m[k] || 0) + 1` over `ℕ`. -/
def jsBump (m : List (String × Nat)) (k : String) : List (String × Nat) :=
  match m with
  | [] => [(k, 1)]
  | (k', v') :: rest =>
    if k' == k then (k', v' + 1) :: rest else (k', v') :: jsBump rest k

/-- Counter lookup with JS `|| 0` default. -/
def jsCount (m : List (String × Nat)) (k : String) : Nat :=
  ((m.find? (fun p => p.1 == k)).map (·.2)).getD 0

theorem valuesSum_jsAdd (m : List (String × ℚ)) (k : String) (v : ℚ) :
    valuesSum (jsAdd m k v) = valuesSum m + v := by
  induction m with
  | nil => simp [jsAdd, valuesSum]
  | cons hd tl ih =>
    obtain ⟨k', v'⟩ := hd
    by_cases h : k' == k
    · simp [jsAdd, h, valuesSum]; ring
    · simp only [jsAdd, h, Bool.false_eq_true, if_false]
      simp [valuesSum] at ih ⊢
      rw [ih]; ring

theorem jsGet_nonneg (m : List (String × ℚ)) (k : String)
    (hm : ∀ p ∈ m, 0 ≤ p.2) : ∀ v, jsGet m k = some v → 0 ≤ v := by
  intro v hv
  simp only [jsGet, Option.map_eq_some'] at hv
  obtain ⟨p, hp, rfl⟩ := hv
  exact hm p (List.mem_of_find?_eq_some hp)

theorem jsAdd_nonneg (m : List (String × ℚ)) (k : String) (v : ℚ)
    (hm : ∀ p ∈ m, 0 ≤ p.2) (hv : 0 ≤ v) : ∀ p ∈ jsAdd m k v, 0 ≤ p.2 := by
  induction m with
  | nil => simpa [jsAdd] using hv
  | cons hd tl ih =>
    obtain ⟨k', v'⟩ := hd
    by_cases h : k' == k
    · simp only [jsAdd, h, if_true]
      intro p hp
      rcases List.mem_cons.mp hp with rfl | hp
      · have := hm (k', v') (List.mem_cons_self _ _)
        simpa using add_nonneg this hv
      · exact hm p (List.mem_cons_of_mem _ hp)
    · simp only [jsAdd, h, Bool.false_eq_true, if_false]
      intro p hp
      rcases List.mem_cons.mp hp with rfl | hp
      · exact hm _ (List.mem_cons_self _ _)
      · exact ih (fun q hq => hm q (List.mem_cons_of_mem _ hq)) p hp

/-! ## Common normalized data model -/

/-- Normalized asset record emitted by the three fetch adapters
(`src/lib/connectors/{aws,azure,gcp}.ts`).  Fields that only some adapters
set (`resourceType`, `resourceId`) default to `""` (JS `undefined` is
modelled by the empty string, which is likewise falsy). -/
structure NAsset where
  id : String
  service : String
  resourceType : String := ""
  region : String
  resourceId : String := ""
  tags : List String := []
  provider : String
  costThisMonth : ℚ := 0
deriving DecidableEq

/-- Result of one fetch-adapter invocation. -/
structure ScanResult where
  provider : String
  assets : List NAsset
  totalCost : ℚ
  costByService : List (String × ℚ)
  costByRegion : List (String × ℚ)
deriving DecidableEq

/-! ## Persistence writer (`src/lib/connectors/save.ts`) -/

/-- One row of the `cloud_scan` scan-history table. -/
structure ScanRow where
  provider : String
  region : String
  service : String
  resourceId : String
  costThisMonth : ℚ
  tags : List String
  scanType : String
  scannedAt : Nat
deriving DecidableEq

/-- The scan-history store: the rows of `cloud_scan`, in insertion order. -/
abbrev ScanStore := List ScanRow

/-- Modelled from the spec: the `cloud_scan` table's uniqueness key
(provider + resourceId + scan timestamp bucket, spec section 4.4) is declared
in the Prisma schema, which is not among the sources here; `createMany` with
`skipDuplicates: true` silently skips rows that collide on it. -/
def rowKey (r : ScanRow) : String × String × Nat :=
  (r.provider, r.resourceId, r.scannedAt)

/-- Whether the store already holds a row with the given uniqueness key. -/
def keyMem (s : ScanStore) (k : String × String × Nat) : Bool :=
  s.any (fun r => rowKey r == k)

/-- Insert one row, silently skipping it when its uniqueness key collides
with an existing row (`skipDuplicates: true`). -/
def insertRow (s : ScanStore) (r : ScanRow) : ScanStore :=
  if keyMem s (rowKey r) then s else s ++ [r]

/-- The row `saveScanResults` builds for one asset (`data:` mapping):
`resourceId: a.id || a.resourceId`, `region: a.region || "unknown"`,
`costThisMonth: a.costThisMonth || 0`, `scannedAt: new Date()` (passed in
explicitly as the timestamp bucket `scannedAt`). -/
def toScanRow (provider scanType : String) (scannedAt : Nat) (a : NAsset) : ScanRow :=
  { provider := provider
    region := if a.region == "" then "unknown" else a.region
    service := a.service
    resourceId := if a.id == "" then a.resourceId else a.id
    costThisMonth := a.costThisMonth
    tags := a.tags
    scanType := scanType
    scannedAt := scannedAt }

/-- `saveScanResults(provider, assets, scanType)`: `createMany` of one row
per asset with `skipDuplicates: true`. -/
def saveScanResults (provider : String) (assets : List NAsset) (scanType : String)
    (scannedAt : Nat) (store : ScanStore) : ScanStore :=
  (assets.map (toScanRow provider scanType scannedAt)).foldl insertRow store

/-! ## GCP adapter (`src/lib/connectors/gcp.ts`) -/

/-- One entry of the GCP Asset Inventory `listAssets` response. -/
structure GCPRawAsset where
  name : String
  assetType : Option String
  location : Option String
  labels : List (String × String)
deriving DecidableEq

/-- One row of the GCP billing `queryCostStream` response
(`amount` is `parseFloat(result.cost?.amount || "0") || 0`, already parsed). -/
structure GCPCostRow where
  service : Option String
  location : Option String
  amount : ℚ
deriving DecidableEq

/-- `getProjectBillingInfo` response. -/
structure GCPBillingInfo where
  billingAccountName : Option String
deriving DecidableEq

/-- JS `s.split(sep).pop()` (split never yields an empty array). -/
def jsPopSplit (s sep : String) : String :=
  (s.splitOn sep).getLastD ""

/-- JS array indexing with `undefined` (modelled `""`) out of range. -/
def jsIdx (l : List String) (i : Nat) : String :=
  l.getD i ""

/-- GCP asset normalization (gcp.ts lines 28-40):
`service: a.assetType?.split('.')?.pop() || "unknown"`,
`region: location?.split('/')?.pop() || "global"`. -/
def gcpNormalizeAsset (a : GCPRawAsset) : NAsset :=
  { id := a.name
    service := match a.assetType with
      | none => "unknown"
      | some t => let s := jsPopSplit t "."; if s == "" then "unknown" else s
    resourceType := a.assetType.getD "unknown"
    region := match a.location with
      | none => "global"
      | some l => let s := jsPopSplit l "/"; if s == "" then "global" else s
    tags := a.labels.map (fun kv => kv.1 ++ ":" ++ kv.2)
    provider := "GCP" }

/-- Loop body of the GCP cost-row processing (gcp.ts lines 78-86). -/
def gcpCostStep (acc : ℚ × List (String × ℚ) × List (String × ℚ))
    (r : GCPCostRow) : ℚ × List (String × ℚ) × List (String × ℚ) :=
  let service := match r.service with
    | none => "unknown"
    | some s => if s == "" then "unknown" else s
  let region := match r.location with
    | none => "unknown"
    | some l => if l == "" then "unknown" else l
  (acc.1 + r.amount, jsAdd acc.2.1 service r.amount, jsAdd acc.2.2 region r.amount)

/-- GCP cost-row processing (gcp.ts lines 72-86): accumulate `totalCost`,
`costByService` and `costByRegion` over the response rows. -/
def gcpProcessCosts (rows : List GCPCostRow) :
    ℚ × List (String × ℚ) × List (String × ℚ) :=
  rows.foldl gcpCostStep (0, [], [])

/-- `assetCountByService` accumulation shared by the three adapters. -/
def assetCountByService (assets : List NAsset) : List (String × Nat) :=
  assets.foldl (fun m a => jsBump m a.service) []

/-- GCP cost attribution (gcp.ts lines 93-97):
`costByService[asset.service] ? costByService[asset.service] / assetCountByService[asset.service] : 0`. -/
def gcpAssignCosts (costByService : List (String × ℚ)) (assets : List NAsset) :
    List NAsset :=
  let counts := assetCountByService assets
  assets.map (fun a =>
    { a with costThisMonth :=
        match jsGet costByService a.service with
        | some c => if c = 0 then 0 else c / (jsCount counts a.service : ℚ)
        | none => 0 })

/-- `fetchGCPAssetsAndCosts` (gcp.ts).  SDK calls are opaque inputs; a failed
call is an `Except.error`.  The scan-history store is threaded explicitly so
the `saveScanResults` call on line 100 is observable. -/
def fetchGCPAssetsAndCosts (projectId : Option String)
    (listAssets : Except String (List GCPRawAsset))
    (getBillingInfo : Except String GCPBillingInfo)
    (queryCostStream : Except String (List GCPCostRow))
    (now : Nat) (store : ScanStore) : Except String (ScanResult × ScanStore) :=
  match projectId with
  | none => .error "GCP project ID not configured"
  | some _ =>
    match listAssets with
    | .error e => .error ("GCP fetch failed: " ++ e)
    | .ok rawAssets =>
      match getBillingInfo with
      | .error e => .error ("GCP fetch failed: " ++ e)
      | .ok billingInfo =>
        match billingInfo.billingAccountName with
        | none => .error "GCP fetch failed: No billing account associated with this project"
        | some _ =>
          match queryCostStream with
          | .error e => .error ("GCP fetch failed: " ++ e)
          | .ok rows =>
            let assetList := rawAssets.map gcpNormalizeAsset
            let processed := gcpProcessCosts rows
            let assetsWithCost := gcpAssignCosts processed.2.1 assetList
            let store' := saveScanResults "GCP" assetsWithCost "manual" now store
            .ok ({ provider := "GCP"
                   assets := assetsWithCost
                   totalCost := processed.1
                   costByService := processed.2.1
                   costByRegion := processed.2.2 }, store')

/-! ## Azure fetch adapter (`src/lib/connectors/azure.ts`) -/

/-- One entry of the Azure Resource Graph `resources` response
(`project name, type, location, tags, id`). -/
structure AzureRawResource where
  id : String
  type : String
  location : Option String
  tags : List (String × String)
deriving DecidableEq

/-- One row of the Cost Management `queryUsage` response:
`row[0]` ResourceType, `row[1]` ResourceLocation, `row[2]` cost. -/
structure AzureCostRow where
  serviceType : String
  location : Option String
  cost : ℚ
deriving DecidableEq

/-- Azure service-principal credentials; `none` models a missing (or falsy)
environment variable. -/
structure AzureCreds where
  clientId : Option String
  clientSecret : Option String
  tenantId : Option String
  subscriptionId : Option String

/-- Azure resource normalization (azure.ts lines 328-335):
`service: r.type.split('/')[0] || "unknown"`, `resourceType: r.type`. -/
def azureNormalizeResource (r : AzureRawResource) : NAsset :=
  { id := r.id
    service := let s := jsIdx (r.type.splitOn "/") 0; if s == "" then "unknown" else s
    resourceType := r.type
    region := match r.location with
      | none => "unknown"
      | some l => if l == "" then "unknown" else l
    tags := r.tags.map (fun kv => kv.1 ++ ":" ++ kv.2)
    provider := "Azure" }

/-- Loop body of the Azure cost-row processing (azure.ts lines 374-382). -/
def azureCostStep (acc : ℚ × List (String × ℚ) × List (String × ℚ))
    (r : AzureCostRow) : ℚ × List (String × ℚ) × List (String × ℚ) :=
  let region := match r.location with
    | none => "unknown"
    | some l => if l == "" then "unknown" else l
  (acc.1 + r.cost, jsAdd acc.2.1 r.serviceType r.cost, jsAdd acc.2.2 region r.cost)

/-- Azure cost-row processing (azure.ts lines 368-383). -/
def azureProcessCosts (rows : List AzureCostRow) :
    ℚ × List (String × ℚ) × List (String × ℚ) :=
  rows.foldl azureCostStep (0, [], [])

/-- Azure cost attribution (azure.ts lines 391-394).  Note the source looks
the cost up under `asset.resourceType` while dividing by the asset count of
`asset.service`:
`costByService[asset.resourceType] ? costByService[asset.resourceType] / assetCountByService[asset.service] : 0`. -/
def azureAssignCosts (costByService : List (String × ℚ)) (assets : List NAsset) :
    List NAsset :=
  let counts := assetCountByService assets
  assets.map (fun a =>
    { a with costThisMonth :=
        match jsGet costByService a.resourceType with
        | some c => if c = 0 then 0 else c / (jsCount counts a.service : ℚ)
        | none => 0 })

/-- `fetchAzureAssetsAndCosts` (azure.ts). -/
def fetchAzureAssetsAndCosts (creds : AzureCreds)
    (resourcesQuery : Except String (List AzureRawResource))
    (queryUsage : Except String (List AzureCostRow))
    (now : Nat) (store : ScanStore) : Except String (ScanResult × ScanStore) :=
  if creds.clientId.isNone || creds.clientSecret.isNone ||
      creds.tenantId.isNone || creds.subscriptionId.isNone then
    .error "Azure credentials not configured"
  else
    match resourcesQuery with
    | .error e => .error ("Azure fetch failed: " ++ e)
    | .ok resources =>
      match queryUsage with
      | .error e => .error ("Azure fetch failed: " ++ e)
      | .ok rows =>
        let assets := resources.map azureNormalizeResource
        let processed := azureProcessCosts rows
        let assetsWithCost := azureAssignCosts processed.2.1 assets
        let store' := saveScanResults "Azure" assetsWithCost "manual" now store
        .ok ({ provider := "Azure"
               assets := assetsWithCost
               totalCost := processed.1
               costByService := processed.2.1
               costByRegion := processed.2.2 }, store')

/-! ## AWS fetch adapter (`src/lib/connectors/aws.ts`) -/

/-- One entry of the Resource Groups Tagging API `GetResources` response. -/
structure AWSRawResource where
  resourceARN : Option String
  tags : List (String × String)
deriving DecidableEq

/-- One group of the Cost Explorer `GetCostAndUsage` response
(`Keys` and the parsed `Metrics.BlendedCost.Amount`). -/
structure AWSCostGroup where
  keys : List String
  amount : ℚ
deriving DecidableEq

/-- The Cost Explorer response: the parsed month `Total.BlendedCost.Amount`
plus the per-(service, region) groups over the same period. -/
structure AWSCostResponse where
  totalAmount : ℚ
  groups : List AWSCostGroup
deriving DecidableEq

/-- AWS credentials; `none` models a missing environment variable. -/
structure AWSCreds where
  accessKeyId : Option String
  secretAccessKey : Option String

/-- AWS resource normalization (aws.ts lines 43-53): ARN parts
`service = arnParts[2] || "unknown"`, `region = arnParts[3] || "unknown"`,
`resourceId = arnParts[5] || arnParts[6] || "unknown"`. -/
def awsNormalizeResource (r : AWSRawResource) : NAsset :=
  let arnParts := match r.resourceARN with
    | none => []
    | some arn => arn.splitOn ":"
  { id := r.resourceARN.getD ""
    service := let s := jsIdx arnParts 2; if s == "" then "unknown" else s
    region := let s := jsIdx arnParts 3; if s == "" then "unknown" else s
    resourceId :=
      let s5 := jsIdx arnParts 5
      if s5 == "" then
        let s6 := jsIdx arnParts 6
        if s6 == "" then "unknown" else s6
      else s5
    tags := r.tags.map (fun kv => kv.1 ++ ":" ++ kv.2)
    provider := "AWS" }

/-- Loop body of the AWS cost-group processing (aws.ts lines 79-86):
`service = group.Keys?.[0] || "unknown"`, `region = group.Keys?.[1] || "unknown"`. -/
def awsCostStep (acc : List (String × ℚ) × List (String × ℚ))
    (g : AWSCostGroup) : List (String × ℚ) × List (String × ℚ) :=
  let service := let s := jsIdx g.keys 0; if s == "" then "unknown" else s
  let region := let s := jsIdx g.keys 1; if s == "" then "unknown" else s
  (jsAdd acc.1 service g.amount, jsAdd acc.2 region g.amount)

/-- AWS cost-group processing (aws.ts lines 75-86). -/
def awsProcessCosts (groups : List AWSCostGroup) :
    List (String × ℚ) × List (String × ℚ) :=
  groups.foldl awsCostStep ([], [])

/-- AWS cost attribution (aws.ts lines 94-97), same formula as GCP. -/
def awsAssignCosts (costByService : List (String × ℚ)) (assets : List NAsset) :
    List NAsset :=
  let counts := assetCountByService assets
  assets.map (fun a =>
    { a with costThisMonth :=
        match jsGet costByService a.service with
        | some c => if c = 0 then 0 else c / (jsCount counts a.service : ℚ)
        | none => 0 })

/-- `fetchAWSAssetsAndCosts` (aws.ts).  Note line 72: `totalCost` is taken
from the vendor-reported `Total.BlendedCost.Amount`, not from summing the
groups. -/
def fetchAWSAssetsAndCosts (creds : AWSCreds)
    (getResources : Except String (List AWSRawResource))
    (getCostAndUsage : Except String AWSCostResponse)
    (now : Nat) (store : ScanStore) : Except String (ScanResult × ScanStore) :=
  if creds.accessKeyId.isNone || creds.secretAccessKey.isNone then
    .error "AWS credentials not configured"
  else
    match getResources with
    | .error e => .error ("AWS fetch failed: " ++ e)
    | .ok raws =>
      match getCostAndUsage with
      | .error e => .error ("AWS fetch failed: " ++ e)
      | .ok costRes =>
        let assets := raws.map awsNormalizeResource
        let processed := awsProcessCosts costRes.groups
        let assetsWithCost := awsAssignCosts processed.1 assets
        let store' := saveScanResults "AWS" assetsWithCost "manual" now store
        .ok ({ provider := "AWS"
               assets := assetsWithCost
               totalCost := costRes.totalAmount
               costByService := processed.1
               costByRegion := processed.2 }, store')

/-! ## Unified scan route (`src/app/api/scan/route.ts`, POST) -/

/-- JS object assignment `m[k] = v` (route.ts line 56). -/
def jsSet (m : List (String × ℚ)) (k : String) (v : ℚ) : List (String × ℚ) :=
  match m with
  | [] => [(k, v)]
  | (k', v') :: rest =>
    if k' == k then (k', v) :: rest else (k', v') :: jsSet rest k v

/-- Merge one scan's cost map into the combined map by summing per key
(route.ts lines 59-70). -/
def mergeCostMaps (base m : List (String × ℚ)) : List (String × ℚ) :=
  m.foldl (fun acc kv => jsAdd acc kv.1 kv.2) base

/-- `costSummary` of the unified scan response. -/
structure CostSummary where
  totalCost : ℚ
  costByProvider : List (String × ℚ)
  costByService : List (String × ℚ)
  costByRegion : List (String × ℚ)
  monthlyTrend : List (String × ℚ)
deriving DecidableEq

/-- The unified scan response (route.ts lines 73-88); `errors = none` models
the omitted (`undefined`) field. -/
structure ScanResponse where
  success : Bool
  providers : List String
  assets : List NAsset
  costSummary : CostSummary
  errors : Option (List String)
deriving DecidableEq

/-- The fan-out array (route.ts lines 15-25): the aws, azure and gcp adapter
promises are pushed in that fixed order when the request's provider list
contains the exact lowercase id. -/
def scanPromises (providers : List String)
    (aws azure gcp : Except String ScanResult) : List (Except String ScanResult) :=
  (if providers.contains "aws" then [aws] else []) ++
  (if providers.contains "azure" then [azure] else []) ++
  (if providers.contains "gcp" then [gcp] else [])

/-- Fulfilled outcomes in settle order (route.ts lines 34-37). -/
def successfulScans (results : List (Except String ScanResult)) : List ScanResult :=
  results.filterMap (fun r => match r with | .ok s => some s | .error _ => none)

/-- Rejected outcomes (route.ts lines 38-43), labelled with
`providers[index]` where `index` is the position in the settled array (JS
yields the string `"undefined"` when the index is out of range). -/
def scanErrors (providers : List String)
    (results : List (Except String ScanResult)) : List String :=
  results.enum.filterMap (fun p => match p.2 with
    | .ok _ => none
    | .error m => some (providers.getD p.1 "undefined" ++ ": " ++ m))

/-- `POST /api/scan` (route.ts lines 7-101) as a function of the request's
provider list and the three adapter outcomes; `now` is the ISO timestamp used
for `monthlyTrend` (its first 7 chars are the month). -/
def scanRoutePOST (providers : List String)
    (aws azure gcp : Except String ScanResult) (now : String) : ScanResponse :=
  let results := scanPromises providers aws azure gcp
  let succ := successfulScans results
  let errs := scanErrors providers results
  let allAssets := succ.flatMap (·.assets)
  let totalCost := succ.foldl (fun s scan => s + scan.totalCost) 0
  let merged := succ.foldl
    (fun (acc : List (String × ℚ) × List (String × ℚ) × List (String × ℚ)) scan =>
      (jsSet acc.1 scan.provider scan.totalCost,
       mergeCostMaps acc.2.1 scan.costByService,
       mergeCostMaps acc.2.2 scan.costByRegion))
    ([], [], [])
  { success := errs.length == 0
    providers := succ.map (·.provider)
    assets := allAssets
    costSummary := { totalCost := totalCost
                     costByProvider := merged.1
                     costByService := merged.2.1
                     costByRegion := merged.2.2
                     monthlyTrend := [(now.take 7, totalCost)] }
    errors := if errs.length > 0 then some errs else none }

/-! ## Trend query (`src/app/api/scans/trends/route.ts`) -/

/-- One row of the grouped aggregate query
(`GROUP BY provider, month ORDER BY month`); `month` is an abstract ordered
month index. -/
structure TrendRow where
  provider : String
  month : Nat
  totalCost : ℚ
deriving DecidableEq

/-- Month-over-month computation (trends route lines 39-43):
`prev = arr[i-1]?.total_cost || r.total_cost` — the immediately preceding row
of the flat array regardless of provider, falling back to the row's own cost
when there is no previous row or its cost is `0`. -/
def percentChanges (rows : List TrendRow) : List ℚ :=
  rows.enum.map (fun p =>
    let r := p.2
    let prev := match p.1 with
      | 0 => r.totalCost
      | Nat.succ j =>
        match rows.get? j with
        | some q => if q.totalCost = 0 then r.totalCost else q.totalCost
        | none => r.totalCost
    (r.totalCost - prev) / prev * 100)

/-- The claim's percent-change rule, written from the spec for comparison:
previous = the nearest earlier row of the *same provider*; the first row of a
provider's series gets `0`. -/
def specPercentChanges (rows : List TrendRow) : List ℚ :=
  rows.enum.map (fun p =>
    match ((rows.take p.1).filter (fun q => q.provider == p.2.provider)).getLast? with
    | none => 0
    | some q => (p.2.totalCost - q.totalCost) / q.totalCost * 100)

/-- Trend cache key (trends route line 15):
`trends:providers.join(","):region||"all":service||"all":months`. -/
def trendsCacheKey (providers : List String) (region service : Option String)
    (months : Nat) : String :=
  "trends:" ++ String.intercalate "," providers ++ ":" ++
    (match region with | none => "all" | some r => if r == "" then "all" else r) ++ ":" ++
    (match service with | none => "all" | some s => if s == "" then "all" else s) ++ ":" ++
    toString months

/-! ## `AWSConnector` class (`src/lib/aws-connector.ts`)

Only the fields of `CloudAsset` the verified properties mention are kept;
the display-only fields (`assetName`, `criticality`, `owner`, `notes`,
`usageMetrics`, `status`) are dropped. -/

/-- A raw EC2 instance from `DescribeInstances` (reservations flattened). -/
structure EC2RawInstance where
  instanceId : Option String
deriving DecidableEq

/-- A raw S3 bucket from `ListBuckets`. -/
structure S3RawBucket where
  name : Option String
deriving DecidableEq

/-- Asset record produced by the connector classes. -/
structure CloudAsset where
  id : String
  provider : String
  service : String
  region : String
  resourceId : String
  tags : List String
  connectedAssets : List String
  resourceGroup : String := ""
deriving DecidableEq

namespace AWSConnector

/-- `fetchEC2Instances` (aws-connector.ts lines 89-138).  The whole body is
wrapped in a `try` whose `catch` only logs, then `return instances` — a
failed `DescribeInstances` yields the instances gathered so far (here `[]`);
`getInstanceTags` (lines 180-197) likewise catches and returns `[]`, so a
failed tag call never aborts the listing. -/
def fetchEC2Instances (region : String)
    (describeInstances : Except String (List EC2RawInstance))
    (getInstanceTags : String → Except String (List (String × String))) :
    List CloudAsset :=
  match describeInstances with
  | .error _ => []
  | .ok instances =>
    instances.filterMap (fun i =>
      match i.instanceId with
      | none => none
      | some iid =>
        let tags := match getInstanceTags iid with
          | .ok ts => ts
          | .error _ => []
        some { id := iid
               provider := "AWS"
               service := "EC2"
               region := region
               resourceId := iid
               tags := tags.map (fun kv => kv.1 ++ ":" ++ kv.2)
               connectedAssets := [] })

/-- `fetchS3Buckets` (aws-connector.ts lines 140-178), same swallow-on-error
shape as `fetchEC2Instances`. -/
def fetchS3Buckets (region : String)
    (listBuckets : Except String (List S3RawBucket))
    (getBucketTags : String → Except String (List (String × String))) :
    List CloudAsset :=
  match listBuckets with
  | .error _ => []
  | .ok buckets =>
    buckets.filterMap (fun b =>
      match b.name with
      | none => none
      | some nm =>
        let tags := match getBucketTags nm with
          | .ok ts => ts
          | .error _ => []
        some { id := nm
               provider := "AWS"
               service := "S3"
               region := region
               resourceId := nm
               tags := tags.map (fun kv => kv.1 ++ ":" ++ kv.2)
               connectedAssets := [] })

/-- `addConnections` (aws-connector.ts lines 219-230): every EC2 asset's
`connectedAssets` is set to the ids of the first two S3 assets of the batch;
other assets are left unchanged. -/
def addConnections (assets : List CloudAsset) : List CloudAsset :=
  let buckets := assets.filter (fun a => a.service == "S3")
  assets.map (fun a =>
    if a.service == "EC2" then
      { a with connectedAssets := (buckets.take 2).map (·.id) }
    else a)

/-- `scanAssets` (aws-connector.ts lines 40-60).  Because both listing
helpers swallow their own SDK failures, nothing inside the `try` can throw:
the call always fulfills, with whatever assets were gathered. -/
def scanAssets (region : String)
    (describeInstances : Except String (List EC2RawInstance))
    (getInstanceTags : String → Except String (List (String × String)))
    (listBuckets : Except String (List S3RawBucket))
    (getBucketTags : String → Except String (List (String × String))) :
    Except String (List CloudAsset) :=
  .ok (addConnections
    (fetchEC2Instances region describeInstances getInstanceTags ++
     fetchS3Buckets region listBuckets getBucketTags))

end AWSConnector

/-! ## `AzureConnector` class (the Azure connector module,
`AzureConnector.scanAssets` and helpers).  As for `AWSConnector`, only the
fields the verified properties mention are kept; the per-VM `instanceView`
call is modelled as an opaque fallible call whose payload (power state) feeds
only dropped display fields. -/

/-- A raw VM from `virtualMachines.listAll`; `none` models a missing (or
falsy) field, filtered by `if (vm.id && vm.name && vm.location)`. -/
structure AzureRawVM where
  id : Option String
  name : Option String
  location : Option String
  tags : List (String × String)
deriving DecidableEq

/-- A raw storage account from `storageAccounts.list`. -/
structure AzureRawStorage where
  id : Option String
  name : Option String
  location : Option String
  tags : List (String × String)
deriving DecidableEq

/-- `mapAzureRegion` (the connector's fixed region table; unmapped regions
are returned as-is). -/
def mapAzureRegion (r : String) : String :=
  let regionMap : List (String × String) :=
    [("eastus", "East US"), ("westus", "West US"), ("centralus", "Central US"),
     ("eastus2", "East US 2"), ("westus2", "West US 2"),
     ("westeurope", "West Europe"), ("northeurope", "North Europe"),
     ("southeastasia", "Southeast Asia"), ("eastasia", "East Asia")]
  ((regionMap.find? (fun p => p.1 == r.toLower)).map (·.2)).getD r

namespace AzureConnector

/-- Loop of `fetchVirtualMachines` (lines 113-147): one `instanceView` SDK
call per VM inside the same `try`; when it throws, the `catch` only logs and
the VMs gathered so far are returned. -/
def fetchVMsAux (instanceView : String → String → Except String Unit)
    (vms : List AzureRawVM) (acc : List CloudAsset) : List CloudAsset :=
  match vms with
  | [] => acc
  | vm :: rest =>
    match vm.id, vm.name, vm.location with
    | some i, some n, some l =>
      let rg := jsIdx (i.splitOn "/") 4
      match instanceView rg n with
      | .error _ => acc
      | .ok _ =>
        fetchVMsAux instanceView rest (acc ++
          [{ id := i
             provider := "Azure"
             service := "Virtual Machine"
             region := mapAzureRegion l
             resourceId := i
             tags := vm.tags.map (fun kv => kv.1 ++ ":" ++ kv.2)
             connectedAssets := []
             resourceGroup := rg }])
    | _, _, _ => fetchVMsAux instanceView rest acc

/-- `fetchVirtualMachines` (lines 107-153): a failed `listAll` is swallowed
by the `catch` and yields the VMs gathered so far (here `[]`). -/
def fetchVirtualMachines (listAll : Except String (List AzureRawVM))
    (instanceView : String → String → Except String Unit) : List CloudAsset :=
  match listAll with
  | .error _ => []
  | .ok vms => fetchVMsAux instanceView vms []

/-- `fetchStorageAccounts` (lines 155-196), same swallow-on-error shape. -/
def fetchStorageAccounts (list : Except String (List AzureRawStorage)) :
    List CloudAsset :=
  match list with
  | .error _ => []
  | .ok sas =>
    sas.filterMap (fun sa =>
      match sa.id, sa.name, sa.location with
      | some i, some _, some l =>
        some { id := i
               provider := "Azure"
               service := "Storage Account"
               region := mapAzureRegion l
               resourceId := i
               tags := sa.tags.map (fun kv => kv.1 ++ ":" ++ kv.2)
               connectedAssets := []
               resourceGroup := jsIdx (i.splitOn "/") 4 }
      | _, _, _ => none)

/-- `addConnections` (lines 198-211): every VM's `connectedAssets` is set to
the ids of the storage accounts sharing its resource group. -/
def addConnections (assets : List CloudAsset) : List CloudAsset :=
  let storageAccounts := assets.filter (fun a => a.service == "Storage Account")
  assets.map (fun a =>
    if a.service == "Virtual Machine" then
      { a with connectedAssets :=
          (storageAccounts.filter
            (fun sa => sa.resourceGroup == a.resourceGroup)).map (·.id) }
    else a)

/-- `scanAssets` (lines 41-66): both listing helpers swallow their own SDK
failures, so the call always fulfills with whatever was gathered. -/
def scanAssets (listAll : Except String (List AzureRawVM))
    (instanceView : String → String → Except String Unit)
    (storageList : Except String (List AzureRawStorage)) :
    Except String (List CloudAsset) :=
  .ok (addConnections
    (fetchVirtualMachines listAll instanceView ++
     fetchStorageAccounts storageList))

end AzureConnector

/-! ## Lemmas: persistence writer -/

theorem keyMem_insertRow (s : ScanStore) (r : ScanRow) (k : String × String × Nat) :
    keyMem (insertRow s r) k = (keyMem s k || (rowKey r == k)) := by
  unfold insertRow
  by_cases h : keyMem s (rowKey r)
  · simp only [h, if_true]
    cases hk : keyMem s k
    · simp only [Bool.false_or]
      by_cases hrk : rowKey r == k
      · exfalso
        have : keyMem s k = true := by
          have : rowKey r = k := by simpa using hrk
          rwa [this] at h
        simp [this] at hk
      · simp [hrk, hk]
    · simp [hk]
  · simp only [h, Bool.false_eq_true, if_false]
    simp [keyMem, List.any_append]

theorem insertRow_of_keyMem (s : ScanStore) (r : ScanRow)
    (h : keyMem s (rowKey r) = true) : insertRow s r = s := by
  simp [insertRow, h]

theorem keyMem_foldl_mono (rows : List ScanRow) (s : ScanStore)
    (k : String × String × Nat) (h : keyMem s k = true) :
    keyMem (rows.foldl insertRow s) k = true := by
  induction rows generalizing s with
  | nil => simpa using h
  | cons hd tl ih =>
    simp only [List.foldl_cons]
    exact ih _ (by simp [keyMem_insertRow, h])

theorem keyMem_foldl_self (rows : List ScanRow) (s : ScanStore) (r : ScanRow)
    (h : r ∈ rows) : keyMem (rows.foldl insertRow s) (rowKey r) = true := by
  induction rows generalizing s with
  | nil => cases h
  | cons hd tl ih =>
    simp only [List.foldl_cons]
    rcases List.mem_cons.mp h with rfl | h
    · exact keyMem_foldl_mono _ _ _ (by simp [keyMem_insertRow])
    · exact ih _ h

theorem foldl_insertRow_of_all_mem (rows : List ScanRow) (s : ScanStore)
    (h : ∀ r ∈ rows, keyMem s (rowKey r) = true) :
    rows.foldl insertRow s = s := by
  induction rows with
  | nil => rfl
  | cons hd tl ih =>
    simp only [List.foldl_cons]
    rw [insertRow_of_keyMem _ _ (h hd (List.mem_cons_self _ _))]
    exact ih (fun r hr => h r (List.mem_cons_of_mem _ hr))

/-- C7: the persistence writer's `record` operation is idempotent: invoking
`saveScanResults` twice with an identical asset batch, provider, scan type
and scan timestamp bucket leaves the scan-history store exactly as one
invocation does — the second call's rows all collide on the uniqueness key
(provider + resourceId + scan timestamp bucket) and are silently skipped. -/
theorem saveScanResults_idempotent (provider : String) (assets : List NAsset)
    (scanType : String) (scannedAt : Nat) (store : ScanStore) :
    saveScanResults provider assets scanType scannedAt
        (saveScanResults provider assets scanType scannedAt store) =
      saveScanResults provider assets scanType scannedAt store := by
  unfold saveScanResults
  exact foldl_insertRow_of_all_mem _ _
    (fun r hr => keyMem_foldl_self _ _ _ hr)

/-! ## Lemmas: cost attribution (counts) -/

theorem jsCount_jsBump (m : List (String × Nat)) (k k' : String) :
    jsCount (jsBump m k) k' =
      if k = k' then jsCount m k' + 1 else jsCount m k' := by
  induction m with
  | nil =>
    by_cases h : k = k'
    · subst h
      simp [jsBump, jsCount, List.find?]
    · simp [jsBump, jsCount, List.find?,
        show (k == k') = false by simpa using h, h]
  | cons hd tl ih =>
    obtain ⟨a, b⟩ := hd
    by_cases hak : a = k
    · subst hak
      by_cases h : a = k'
      · subst h
        simp [jsBump, jsCount, List.find?]
      · simp [jsBump, jsCount, List.find?,
          show (a == k') = false by simpa using h, h]
    · have hb : (a == k) = false := by simpa using hak
      by_cases h : a = k'
      · subst h
        simp [jsBump, jsCount, List.find?, hb,
          show ¬ k = a from fun hh => hak hh.symm]
      · have hb' : (a == k') = false := by simpa using h
        simp only [jsBump, hb, Bool.false_eq_true, if_false]
        simp only [jsCount, List.find?, hb'] at ih ⊢
        exact ih

theorem jsCount_foldl_bump (assets : List NAsset) (m : List (String × Nat))
    (s : String) :
    jsCount (assets.foldl (fun m a => jsBump m a.service) m) s =
      jsCount m s + assets.countP (fun a => a.service == s) := by
  induction assets generalizing m with
  | nil => simp
  | cons hd tl ih =>
    simp only [List.foldl_cons, List.countP_cons]
    rw [ih]
    by_cases h : hd.service = s
    · simp [jsCount_jsBump, h]
      omega
    · simp [jsCount_jsBump, h, show (hd.service == s) = false by simpa using h]

theorem assetCountByService_spec (assets : List NAsset) (s : String) :
    jsCount (assetCountByService assets) s =
      assets.countP (fun a => a.service == s) := by
  simpa [jsCount, List.find?] using jsCount_foldl_bump assets [] s

/-- The claim's cost-attribution formula, written from the spec for
comparison: `costByService[asset.service]` divided by the number of assets of
the same service when the service has a cost entry, else `0`. -/
def specCostShare (costByService : List (String × ℚ)) (assets : List NAsset)
    (a : NAsset) : ℚ :=
  match jsGet costByService a.service with
  | some c => c / (assets.countP (fun b => b.service == a.service) : ℚ)
  | none => 0

/-- The Azure adapter's actual attribution rule: the cost is looked up under
the asset's `resourceType` while the denominator counts assets of its
`service`. -/
def azureCostShare (costByService : List (String × ℚ)) (assets : List NAsset)
    (a : NAsset) : ℚ :=
  match jsGet costByService a.resourceType with
  | some c => c / (assets.countP (fun b => b.service == a.service) : ℚ)
  | none => 0

theorem assignShare_eq (cbs : List (String × ℚ)) (assets : List NAsset)
    (a : NAsset) (key : String) :
    (match jsGet cbs key with
     | some c => if c = 0 then 0 else c / (jsCount (assetCountByService assets) a.service : ℚ)
     | none => 0) =
    (match jsGet cbs key with
     | some c => c / (assets.countP (fun b => b.service == a.service) : ℚ)
     | none => (0 : ℚ)) := by
  cases hj : jsGet cbs key with
  | none => rfl
  | some c =>
    by_cases hc : c = 0
    · simp [hc]
    · simp [hc, assetCountByService_spec]

/-- C2 (amended): the GCP and AWS adapters attribute to every asset exactly
`costByService[asset.service] / count(assets with the same service)` when the
service has a cost entry and `0` otherwise; the Azure adapter instead looks
the cost up under the asset's `resourceType` (dividing by the asset count of
its `service`), so the contract is not identical across the three. -/
theorem assignCosts_contract (costByService : List (String × ℚ))
    (assets : List NAsset) :
    ((gcpAssignCosts costByService assets).map (·.costThisMonth) =
        assets.map (specCostShare costByService assets)) ∧
    ((awsAssignCosts costByService assets).map (·.costThisMonth) =
        assets.map (specCostShare costByService assets)) ∧
    ((azureAssignCosts costByService assets).map (·.costThisMonth) =
        assets.map (azureCostShare costByService assets)) := by
  refine ⟨?_, ?_, ?_⟩
  · simp only [gcpAssignCosts, List.map_map]
    refine List.map_congr_left (fun a _ => ?_)
    simpa [specCostShare] using assignShare_eq costByService assets a a.service
  · simp only [awsAssignCosts, List.map_map]
    refine List.map_congr_left (fun a _ => ?_)
    simpa [specCostShare] using assignShare_eq costByService assets a a.service
  · simp only [azureAssignCosts, List.map_map]
    refine List.map_congr_left (fun a _ => ?_)
    simpa [azureCostShare] using assignShare_eq costByService assets a a.resourceType

/-! ## Lemmas: totalCost vs costByService -/

theorem gcpFold_total (rows : List GCPCostRow)
    (acc : ℚ × List (String × ℚ) × List (String × ℚ)) :
    (rows.foldl gcpCostStep acc).1 - valuesSum (rows.foldl gcpCostStep acc).2.1 =
      acc.1 - valuesSum acc.2.1 := by
  induction rows generalizing acc with
  | nil => rfl
  | cons hd tl ih =>
    simp only [List.foldl_cons]
    rw [ih]
    simp [gcpCostStep, valuesSum_jsAdd]

theorem azureFold_total (rows : List AzureCostRow)
    (acc : ℚ × List (String × ℚ) × List (String × ℚ)) :
    (rows.foldl azureCostStep acc).1 - valuesSum (rows.foldl azureCostStep acc).2.1 =
      acc.1 - valuesSum acc.2.1 := by
  induction rows generalizing acc with
  | nil => rfl
  | cons hd tl ih =>
    simp only [List.foldl_cons]
    rw [ih]
    simp [azureCostStep, valuesSum_jsAdd]

theorem gcpProcessCosts_total (rows : List GCPCostRow) :
    (gcpProcessCosts rows).1 = valuesSum (gcpProcessCosts rows).2.1 := by
  have h := gcpFold_total rows (0, [], [])
  simp only [valuesSum, List.map_nil, List.sum_nil, sub_zero] at h
  have h' : (gcpProcessCosts rows).1 - valuesSum (gcpProcessCosts rows).2.1 = 0 := by
    simpa [gcpProcessCosts] using h
  linarith [h']

theorem azureProcessCosts_total (rows : List AzureCostRow) :
    (azureProcessCosts rows).1 = valuesSum (azureProcessCosts rows).2.1 := by
  have h := azureFold_total rows (0, [], [])
  simp only [valuesSum, List.map_nil, List.sum_nil, sub_zero] at h
  have h' : (azureProcessCosts rows).1 - valuesSum (azureProcessCosts rows).2.1 = 0 := by
    simpa [azureProcessCosts] using h
  linarith [h']

/-- C6 (amended): every ScanResult produced by the GCP or the Azure adapter
satisfies `totalCost = sum(costByService.values())` exactly (hence within any
positive tolerance), for arbitrary raw billing rows.  The AWS adapter instead
takes `totalCost` from the vendor-reported month total, which need not equal
the sum of the group amounts (see the counterexample). -/
theorem totalCost_eq_valuesSum
    (pid : Option String) (la : Except String (List GCPRawAsset))
    (gbi : Except String GCPBillingInfo) (qcs : Except String (List GCPCostRow))
    (nowG : Nat) (storeG : ScanStore) (resG : ScanResult) (stG : ScanStore)
    (creds : AzureCreds) (rq : Except String (List AzureRawResource))
    (qu : Except String (List AzureCostRow)) (nowA : Nat) (storeA : ScanStore)
    (resA : ScanResult) (stA : ScanStore)
    (hg : fetchGCPAssetsAndCosts pid la gbi qcs nowG storeG = .ok (resG, stG))
    (ha : fetchAzureAssetsAndCosts creds rq qu nowA storeA = .ok (resA, stA)) :
    resG.totalCost = valuesSum resG.costByService ∧
    resA.totalCost = valuesSum resA.costByService := by
  constructor
  · cases pid with
    | none => simp [fetchGCPAssetsAndCosts] at hg
    | some p =>
      cases la with
      | error e => simp [fetchGCPAssetsAndCosts] at hg
      | ok raws =>
        cases gbi with
        | error e => simp [fetchGCPAssetsAndCosts] at hg
        | ok bi =>
          cases hbn : bi.billingAccountName with
          | none => simp [fetchGCPAssetsAndCosts, hbn] at hg
          | some acct =>
            cases qcs with
            | error e => simp [fetchGCPAssetsAndCosts, hbn] at hg
            | ok rows =>
              simp only [fetchGCPAssetsAndCosts, hbn, Except.ok.injEq,
                Prod.mk.injEq] at hg
              obtain ⟨hres, -⟩ := hg
              subst hres
              exact gcpProcessCosts_total rows
  · by_cases hc : (creds.clientId.isNone || creds.clientSecret.isNone ||
        creds.tenantId.isNone || creds.subscriptionId.isNone)
    · simp [fetchAzureAssetsAndCosts, hc] at ha
    · cases rq with
      | error e => simp [fetchAzureAssetsAndCosts, hc] at ha
      | ok resources =>
        cases qu with
        | error e => simp [fetchAzureAssetsAndCosts, hc] at ha
        | ok rows =>
          simp only [fetchAzureAssetsAndCosts, hc, Bool.false_eq_true, if_false,
            Except.ok.injEq, Prod.mk.injEq] at ha
          obtain ⟨hres, -⟩ := ha
          subst hres
          exact azureProcessCosts_total rows

/-! ## Lemmas: asset-record invariants -/

theorem gcpFold_cbs_nonneg (rows : List GCPCostRow)
    (acc : ℚ × List (String × ℚ) × List (String × ℚ))
    (hacc : ∀ p ∈ acc.2.1, 0 ≤ p.2) (hrows : ∀ r ∈ rows, 0 ≤ r.amount) :
    ∀ p ∈ (rows.foldl gcpCostStep acc).2.1, 0 ≤ p.2 := by
  induction rows generalizing acc with
  | nil => simpa using hacc
  | cons hd tl ih =>
    simp only [List.foldl_cons]
    refine ih (gcpCostStep acc hd) ?_ (fun r hr => hrows r (List.mem_cons_of_mem _ hr))
    show ∀ p ∈ jsAdd acc.2.1 _ hd.amount, 0 ≤ p.2
    exact jsAdd_nonneg _ _ _ hacc (hrows hd (List.mem_cons_self _ _))

theorem gcpAssignCosts_nonneg (cbs : List (String × ℚ)) (assets : List NAsset)
    (hcbs : ∀ p ∈ cbs, 0 ≤ p.2) :
    ∀ a ∈ gcpAssignCosts cbs assets, 0 ≤ a.costThisMonth := by
  intro a ha
  simp only [gcpAssignCosts, List.mem_map] at ha
  obtain ⟨b, hb, rfl⟩ := ha
  cases hj : jsGet cbs b.service with
  | none => simp [hj]
  | some c =>
    by_cases hc : c = 0
    · simp [hj, hc]
    · have hc0 : 0 ≤ c := jsGet_nonneg cbs b.service hcbs c hj
      simp only [hj, hc, if_false]
      exact div_nonneg hc0 (Nat.cast_nonneg _)

theorem azureFold_cbs_nonneg (rows : List AzureCostRow)
    (acc : ℚ × List (String × ℚ) × List (String × ℚ))
    (hacc : ∀ p ∈ acc.2.1, 0 ≤ p.2) (hrows : ∀ r ∈ rows, 0 ≤ r.cost) :
    ∀ p ∈ (rows.foldl azureCostStep acc).2.1, 0 ≤ p.2 := by
  induction rows generalizing acc with
  | nil => simpa using hacc
  | cons hd tl ih =>
    simp only [List.foldl_cons]
    refine ih (azureCostStep acc hd) ?_
      (fun r hr => hrows r (List.mem_cons_of_mem _ hr))
    show ∀ p ∈ jsAdd acc.2.1 _ hd.cost, 0 ≤ p.2
    exact jsAdd_nonneg _ _ _ hacc (hrows hd (List.mem_cons_self _ _))

theorem awsFold_cbs_nonneg (groups : List AWSCostGroup)
    (acc : List (String × ℚ) × List (String × ℚ))
    (hacc : ∀ p ∈ acc.1, 0 ≤ p.2) (hgroups : ∀ g ∈ groups, 0 ≤ g.amount) :
    ∀ p ∈ (groups.foldl awsCostStep acc).1, 0 ≤ p.2 := by
  induction groups generalizing acc with
  | nil => simpa using hacc
  | cons hd tl ih =>
    simp only [List.foldl_cons]
    refine ih (awsCostStep acc hd) ?_
      (fun g hg => hgroups g (List.mem_cons_of_mem _ hg))
    show ∀ p ∈ jsAdd acc.1 _ hd.amount, 0 ≤ p.2
    exact jsAdd_nonneg _ _ _ hacc (hgroups hd (List.mem_cons_self _ _))

theorem azureAssignCosts_nonneg (cbs : List (String × ℚ))
    (assets : List NAsset) (hcbs : ∀ p ∈ cbs, 0 ≤ p.2) :
    ∀ a ∈ azureAssignCosts cbs assets, 0 ≤ a.costThisMonth := by
  intro a ha
  simp only [azureAssignCosts, List.mem_map] at ha
  obtain ⟨b, hb, rfl⟩ := ha
  cases hj : jsGet cbs b.resourceType with
  | none => simp [hj]
  | some c =>
    by_cases hc : c = 0
    · simp [hj, hc]
    · have hc0 : 0 ≤ c := jsGet_nonneg cbs b.resourceType hcbs c hj
      simp only [hj, hc, if_false]
      exact div_nonneg hc0 (Nat.cast_nonneg _)

theorem awsAssignCosts_nonneg (cbs : List (String × ℚ))
    (assets : List NAsset) (hcbs : ∀ p ∈ cbs, 0 ≤ p.2) :
    ∀ a ∈ awsAssignCosts cbs assets, 0 ≤ a.costThisMonth := by
  intro a ha
  simp only [awsAssignCosts, List.mem_map] at ha
  obtain ⟨b, hb, rfl⟩ := ha
  cases hj : jsGet cbs b.service with
  | none => simp [hj]
  | some c =>
    by_cases hc : c = 0
    · simp [hj, hc]
    · have hc0 : 0 ≤ c := jsGet_nonneg cbs b.service hcbs c hj
      simp only [hj, hc, if_false]
      exact div_nonneg hc0 (Nat.cast_nonneg _)

theorem fetchEC2_fields (region : String)
    (di : Except String (List EC2RawInstance))
    (tagf : String → Except String (List (String × String))) :
    ∀ a ∈ AWSConnector.fetchEC2Instances region di tagf,
      a.service = "EC2" ∧ a.connectedAssets = [] := by
  intro a ha
  cases di with
  | error e => simp [AWSConnector.fetchEC2Instances] at ha
  | ok instances =>
    simp only [AWSConnector.fetchEC2Instances, List.mem_filterMap] at ha
    obtain ⟨i, -, hi⟩ := ha
    cases hid : i.instanceId with
    | none => simp [hid] at hi
    | some iid =>
      simp only [hid, Option.some.injEq] at hi
      subst hi
      exact ⟨rfl, rfl⟩

theorem fetchS3_fields (region : String)
    (lb : Except String (List S3RawBucket))
    (bktf : String → Except String (List (String × String))) :
    ∀ a ∈ AWSConnector.fetchS3Buckets region lb bktf,
      a.service = "S3" ∧ a.connectedAssets = [] := by
  intro a ha
  cases lb with
  | error e => simp [AWSConnector.fetchS3Buckets] at ha
  | ok buckets =>
    simp only [AWSConnector.fetchS3Buckets, List.mem_filterMap] at ha
    obtain ⟨b, -, hb⟩ := ha
    cases hnm : b.name with
    | none => simp [hnm] at hb
    | some nm =>
      simp only [hnm, Option.some.injEq] at hb
      subst hb
      exact ⟨rfl, rfl⟩

theorem addConnections_map_id (assets : List CloudAsset) :
    (AWSConnector.addConnections assets).map (·.id) = assets.map (·.id) := by
  simp only [AWSConnector.addConnections, List.map_map]
  refine List.map_congr_left (fun a _ => ?_)
  by_cases h : a.service = "EC2" <;> simp [h]

theorem addConnections_no_self_loop (assets : List CloudAsset)
    (hempty : ∀ a ∈ assets, a.connectedAssets = [])
    (hinj : ∀ x ∈ assets, ∀ y ∈ assets, x.id = y.id → x = y) :
    ∀ a ∈ AWSConnector.addConnections assets, a.id ∉ a.connectedAssets := by
  intro a ha
  simp only [AWSConnector.addConnections, List.mem_map] at ha
  obtain ⟨b, hb, rfl⟩ := ha
  by_cases hsv : b.service == "EC2"
  · simp only [hsv, if_true]
    intro hmem
    simp only [List.mem_map] at hmem
    obtain ⟨c, hc, hcid⟩ := hmem
    have hcf : c ∈ assets.filter (fun a => a.service == "S3") :=
      List.mem_of_mem_take hc
    have hcmem : c ∈ assets := List.mem_of_mem_filter hcf
    have hcs3 : c.service = "S3" := by
      have := List.of_mem_filter hcf
      simpa using this
    have hbc : b = c := hinj b hb c hcmem hcid.symm
    have : b.service = "EC2" := by simpa using hsv
    rw [hbc, hcs3] at this
    exact absurd this (by decide)
  · simp only [hsv, Bool.false_eq_true, if_false]
    rw [hempty b hb]
    exact List.not_mem_nil _

/-- C9 (amended): for each of the three fetch adapters, every produced
AssetRecord's `costThisMonth` is non-negative provided every raw billing
amount is non-negative — a negative billing row (e.g. a credit) propagates
into a negative `costThisMonth` — and an `AWSConnector` scan produces no
self-loop in `connectedAssets` provided the batch's asset ids are pairwise
distinct — an S3 bucket named exactly like an EC2 instance id makes the
instance link to itself (see the counterexample for both failures). -/
theorem assetRecord_invariants
    (pid : Option String) (la : Except String (List GCPRawAsset))
    (gbi : Except String GCPBillingInfo) (rowsG : List GCPCostRow)
    (nowG : Nat) (storeG : ScanStore) (resG : ScanResult) (stG : ScanStore)
    (credsA : AzureCreds) (rq : Except String (List AzureRawResource))
    (rowsA : List AzureCostRow) (nowA : Nat) (storeA : ScanStore)
    (resA : ScanResult) (stA : ScanStore)
    (credsW : AWSCreds) (gr : Except String (List AWSRawResource))
    (costW : AWSCostResponse) (nowW : Nat) (storeW : ScanStore)
    (resW : ScanResult) (stW : ScanStore)
    (region : String) (di : Except String (List EC2RawInstance))
    (tagf : String → Except String (List (String × String)))
    (lb : Except String (List S3RawBucket))
    (bktf : String → Except String (List (String × String)))
    (assets : List CloudAsset)
    (hg : fetchGCPAssetsAndCosts pid la gbi (.ok rowsG) nowG storeG =
      .ok (resG, stG))
    (hrg : ∀ r ∈ rowsG, 0 ≤ r.amount)
    (ha : fetchAzureAssetsAndCosts credsA rq (.ok rowsA) nowA storeA =
      .ok (resA, stA))
    (hra : ∀ r ∈ rowsA, 0 ≤ r.cost)
    (hw : fetchAWSAssetsAndCosts credsW gr (.ok costW) nowW storeW =
      .ok (resW, stW))
    (hrw : ∀ g ∈ costW.groups, 0 ≤ g.amount)
    (hs : AWSConnector.scanAssets region di tagf lb bktf = .ok assets)
    (hnd : (assets.map (·.id)).Nodup) :
    (∀ a ∈ resG.assets, 0 ≤ a.costThisMonth) ∧
    (∀ a ∈ resA.assets, 0 ≤ a.costThisMonth) ∧
    (∀ a ∈ resW.assets, 0 ≤ a.costThisMonth) ∧
    (∀ a ∈ assets, a.id ∉ a.connectedAssets) := by
  refine ⟨?_, ?_, ?_, ?_⟩
  · cases pid with
    | none => simp [fetchGCPAssetsAndCosts] at hg
    | some p =>
      cases la with
      | error e => simp [fetchGCPAssetsAndCosts] at hg
      | ok raws =>
        cases gbi with
        | error e => simp [fetchGCPAssetsAndCosts] at hg
        | ok bi =>
          cases hbn : bi.billingAccountName with
          | none => simp [fetchGCPAssetsAndCosts, hbn] at hg
          | some acct =>
            simp only [fetchGCPAssetsAndCosts, hbn, Except.ok.injEq,
              Prod.mk.injEq] at hg
            obtain ⟨hres, -⟩ := hg
            subst hres
            refine gcpAssignCosts_nonneg _ _ ?_
            have := gcpFold_cbs_nonneg rowsG (0, [], []) (by simp) hrg
            simpa [gcpProcessCosts] using this
  · by_cases hc : (credsA.clientId.isNone || credsA.clientSecret.isNone ||
        credsA.tenantId.isNone || credsA.subscriptionId.isNone)
    · simp [fetchAzureAssetsAndCosts, hc] at ha
    · cases rq with
      | error e => simp [fetchAzureAssetsAndCosts, hc] at ha
      | ok resources =>
        simp only [fetchAzureAssetsAndCosts, hc, Bool.false_eq_true,
          if_false, Except.ok.injEq, Prod.mk.injEq] at ha
        obtain ⟨hres, -⟩ := ha
        subst hres
        refine azureAssignCosts_nonneg _ _ ?_
        have := azureFold_cbs_nonneg rowsA (0, [], []) (by simp) hra
        simpa [azureProcessCosts] using this
  · by_cases hc : (credsW.accessKeyId.isNone || credsW.secretAccessKey.isNone)
    · simp [fetchAWSAssetsAndCosts, hc] at hw
    · cases gr with
      | error e => simp [fetchAWSAssetsAndCosts, hc] at hw
      | ok raws =>
        simp only [fetchAWSAssetsAndCosts, hc, Bool.false_eq_true,
          if_false, Except.ok.injEq, Prod.mk.injEq] at hw
        obtain ⟨hres, -⟩ := hw
        subst hres
        refine awsAssignCosts_nonneg _ _ ?_
        have := awsFold_cbs_nonneg costW.groups ([], []) (by simp) hrw
        simpa [awsProcessCosts] using this
  · simp only [AWSConnector.scanAssets, Except.ok.injEq] at hs
    subst hs
    have hnd' : ((AWSConnector.fetchEC2Instances region di tagf ++
        AWSConnector.fetchS3Buckets region lb bktf).map (·.id)).Nodup := by
      rwa [addConnections_map_id] at hnd
    refine addConnections_no_self_loop _ ?_ ?_
    · intro a ha2
      rcases List.mem_append.mp ha2 with h | h
      · exact (fetchEC2_fields region di tagf a h).2
      · exact (fetchS3_fields region lb bktf a h).2
    · exact fun x hx y hy => List.inj_on_of_nodup_map hnd' hx hy

/-- C4 (amended): each standalone fetch adapter (GCP, AWS, Azure) fails
wholly — a failed resource listing or a failed cost query makes the whole
call return a single error and no assets — but the `AWSConnector` and
`AzureConnector` classes' listing helpers swallow SDK failures: their
`scanAssets` with a failed instance listing still fulfills, with exactly the
storage-side assets (a partial asset list). -/
theorem adapter_failure_contract
    (region : String) (e : String)
    (tagf bktf : String → Except String (List (String × String)))
    (lb : Except String (List S3RawBucket))
    (iv : String → String → Except String Unit)
    (sl : Except String (List AzureRawStorage))
    (pid : Option String) (la : Except String (List GCPRawAsset))
    (gbi : Except String GCPBillingInfo) (qcs : Except String (List GCPCostRow))
    (credsW : AWSCreds) (gr : Except String (List AWSRawResource))
    (costW : Except String AWSCostResponse)
    (credsA : AzureCreds) (rq : Except String (List AzureRawResource))
    (qu : Except String (List AzureCostRow))
    (now : Nat) (store : ScanStore) :
    (AWSConnector.scanAssets region (.error e) tagf lb bktf =
      .ok (AWSConnector.addConnections
        (AWSConnector.fetchS3Buckets region lb bktf))) ∧
    (AzureConnector.scanAssets (.error e) iv sl =
      .ok (AzureConnector.addConnections
        (AzureConnector.fetchStorageAccounts sl))) ∧
    (∃ m, fetchGCPAssetsAndCosts pid (.error e) gbi qcs now store = .error m) ∧
    (∃ m, fetchGCPAssetsAndCosts pid la gbi (.error e) now store = .error m) ∧
    (∃ m, fetchAWSAssetsAndCosts credsW (.error e) costW now store = .error m) ∧
    (∃ m, fetchAWSAssetsAndCosts credsW gr (.error e) now store = .error m) ∧
    (∃ m, fetchAzureAssetsAndCosts credsA (.error e) qu now store = .error m) ∧
    (∃ m, fetchAzureAssetsAndCosts credsA rq (.error e) now store = .error m) := by
  refine ⟨?_, rfl, ?_, ?_, ?_, ?_, ?_, ?_⟩
  · simp [AWSConnector.scanAssets, AWSConnector.fetchEC2Instances]
  · cases pid with
    | none => exact ⟨_, rfl⟩
    | some p => exact ⟨_, rfl⟩
  · cases pid with
    | none => exact ⟨_, rfl⟩
    | some p =>
      cases la with
      | error e2 => exact ⟨_, rfl⟩
      | ok raws =>
        cases gbi with
        | error e2 => exact ⟨_, rfl⟩
        | ok bi =>
          obtain ⟨bn⟩ := bi
          cases bn with
          | none => exact ⟨_, rfl⟩
          | some acct => exact ⟨_, rfl⟩
  · by_cases hc : (credsW.accessKeyId.isNone || credsW.secretAccessKey.isNone)
    · exact ⟨"AWS credentials not configured",
        by simp [fetchAWSAssetsAndCosts, hc]⟩
    · exact ⟨"AWS fetch failed: " ++ e, by simp [fetchAWSAssetsAndCosts, hc]⟩
  · by_cases hc : (credsW.accessKeyId.isNone || credsW.secretAccessKey.isNone)
    · exact ⟨"AWS credentials not configured",
        by simp [fetchAWSAssetsAndCosts, hc]⟩
    · cases gr with
      | error e2 =>
        exact ⟨"AWS fetch failed: " ++ e2, by simp [fetchAWSAssetsAndCosts, hc]⟩
      | ok raws =>
        exact ⟨"AWS fetch failed: " ++ e, by simp [fetchAWSAssetsAndCosts, hc]⟩
  · by_cases hc : (credsA.clientId.isNone || credsA.clientSecret.isNone ||
        credsA.tenantId.isNone || credsA.subscriptionId.isNone)
    · exact ⟨"Azure credentials not configured",
        by simp [fetchAzureAssetsAndCosts, hc]⟩
    · exact ⟨"Azure fetch failed: " ++ e,
        by simp [fetchAzureAssetsAndCosts, hc]⟩
  · by_cases hc : (credsA.clientId.isNone || credsA.clientSecret.isNone ||
        credsA.tenantId.isNone || credsA.subscriptionId.isNone)
    · exact ⟨"Azure credentials not configured",
        by simp [fetchAzureAssetsAndCosts, hc]⟩
    · cases rq with
      | error e2 =>
        exact ⟨"Azure fetch failed: " ++ e2,
          by simp [fetchAzureAssetsAndCosts, hc]⟩
      | ok resources =>
        exact ⟨"Azure fetch failed: " ++ e,
          by simp [fetchAzureAssetsAndCosts, hc]⟩

/-- C5 (amended): every provider adapter writes the scan-history store
itself — each successful `fetchGCPAssetsAndCosts`, `fetchAzureAssetsAndCosts`
or `fetchAWSAssetsAndCosts` call leaves the store equal to
`saveScanResults provider res.assets "manual"` applied to the incoming store
(gcp.ts line 100, azure.ts line 397, aws.ts line 100), with no separate
Persistence Writer invocation by the caller. -/
theorem adapters_write_store (pid : Option String)
    (la : Except String (List GCPRawAsset)) (gbi : Except String GCPBillingInfo)
    (qcs : Except String (List GCPCostRow)) (nowG : Nat) (storeG : ScanStore)
    (resG : ScanResult) (stG : ScanStore)
    (credsA : AzureCreds) (rq : Except String (List AzureRawResource))
    (qu : Except String (List AzureCostRow)) (nowA : Nat) (storeA : ScanStore)
    (resA : ScanResult) (stA : ScanStore)
    (credsW : AWSCreds) (gr : Except String (List AWSRawResource))
    (costW : Except String AWSCostResponse) (nowW : Nat) (storeW : ScanStore)
    (resW : ScanResult) (stW : ScanStore)
    (hg : fetchGCPAssetsAndCosts pid la gbi qcs nowG storeG = .ok (resG, stG))
    (ha : fetchAzureAssetsAndCosts credsA rq qu nowA storeA = .ok (resA, stA))
    (hw : fetchAWSAssetsAndCosts credsW gr costW nowW storeW = .ok (resW, stW)) :
    stG = saveScanResults "GCP" resG.assets "manual" nowG storeG ∧
    stA = saveScanResults "Azure" resA.assets "manual" nowA storeA ∧
    stW = saveScanResults "AWS" resW.assets "manual" nowW storeW := by
  refine ⟨?_, ?_, ?_⟩
  · cases pid with
    | none => simp [fetchGCPAssetsAndCosts] at hg
    | some p =>
      cases la with
      | error e => simp [fetchGCPAssetsAndCosts] at hg
      | ok raws =>
        cases gbi with
        | error e => simp [fetchGCPAssetsAndCosts] at hg
        | ok bi =>
          cases hbn : bi.billingAccountName with
          | none => simp [fetchGCPAssetsAndCosts, hbn] at hg
          | some acct =>
            cases qcs with
            | error e => simp [fetchGCPAssetsAndCosts, hbn] at hg
            | ok rows =>
              simp only [fetchGCPAssetsAndCosts, hbn, Except.ok.injEq,
                Prod.mk.injEq] at hg
              obtain ⟨hres, hst⟩ := hg
              subst hres
              subst hst
              rfl
  · by_cases hc : (credsA.clientId.isNone || credsA.clientSecret.isNone ||
        credsA.tenantId.isNone || credsA.subscriptionId.isNone)
    · simp [fetchAzureAssetsAndCosts, hc] at ha
    · cases rq with
      | error e => simp [fetchAzureAssetsAndCosts, hc] at ha
      | ok resources =>
        cases qu with
        | error e => simp [fetchAzureAssetsAndCosts, hc] at ha
        | ok rows =>
          simp only [fetchAzureAssetsAndCosts, hc, Bool.false_eq_true,
            if_false, Except.ok.injEq, Prod.mk.injEq] at ha
          obtain ⟨hres, hst⟩ := ha
          subst hres
          subst hst
          rfl
  · by_cases hc : (credsW.accessKeyId.isNone || credsW.secretAccessKey.isNone)
    · simp [fetchAWSAssetsAndCosts, hc] at hw
    · cases gr with
      | error e => simp [fetchAWSAssetsAndCosts, hc] at hw
      | ok raws =>
        cases costW with
        | error e => simp [fetchAWSAssetsAndCosts, hc] at hw
        | ok costRes =>
          simp only [fetchAWSAssetsAndCosts, hc, Bool.false_eq_true,
            if_false, Except.ok.injEq, Prod.mk.injEq] at hw
          obtain ⟨hres, hst⟩ := hw
          subst hres
          subst hst
          rfl

/-- C3 (amended): `percentChange` is computed against the immediately
preceding row of the flat month-ordered result regardless of provider (with
the row's own cost as fallback); when the result holds rows of a single
provider, all with non-zero totals, this coincides with the per-provider rule
of the spec, and the first row gets `0`. -/
theorem percentChanges_single_provider (rows : List TrendRow) (p : String)
    (hp : ∀ r ∈ rows, r.provider = p) (hnz : ∀ r ∈ rows, r.totalCost ≠ 0) :
    percentChanges rows = specPercentChanges rows := by
  apply List.ext_getElem?
  intro i
  simp only [percentChanges, specPercentChanges]
  rw [List.getElem?_map, List.getElem?_map, List.getElem?_enum]
  cases hri : rows[i]? with
  | none => rfl
  | some r =>
    have hilen : i < rows.length := by
      by_contra hge
      rw [List.getElem?_eq_none (Nat.le_of_not_lt hge)] at hri
      exact Option.noConfusion hri
    simp only [Option.map_some']
    congr 1
    cases i with
    | zero =>
      show (r.totalCost - r.totalCost) / r.totalCost * 100 = _
      rw [List.take_zero, List.filter_nil]
      show _ = (0 : ℚ)
      rw [sub_self, zero_div, zero_mul]
    | succ j =>
      have hjlen : j < rows.length := Nat.lt_of_succ_lt hilen
      cases hqj : rows[j]? with
      | none =>
        rw [List.getElem?_eq_none_iff] at hqj
        omega
      | some q =>
        have hqmem : q ∈ rows := List.getElem?_mem hqj
        have hrmem : r ∈ rows := List.getElem?_mem hri
        have hfilter : (rows.take (j + 1)).filter
            (fun x => x.provider == r.provider) = rows.take (j + 1) := by
          refine List.filter_eq_self.mpr (fun x hx => ?_)
          have hxmem : x ∈ rows := List.mem_of_mem_take hx
          simp [hp x hxmem, hp r hrmem]
        show (r.totalCost -
            (match rows.get? j with
             | some q' => if q'.totalCost = 0 then r.totalCost else q'.totalCost
             | none => r.totalCost)) / _ * 100 = _
        rw [List.get?_eq_getElem?, hqj]
        simp only [hnz q hqmem, if_false]
        have hlast : (rows.take (j + 1)).getLast? = some q := by
          rw [List.getLast?_eq_getElem?]
          have hlen : (rows.take (j + 1)).length = j + 1 := by
            rw [List.length_take]
            omega
          rw [hlen]
          simpa using (List.getElem?_take_of_lt (l := rows)
            (Nat.lt_succ_self j)).trans hqj
        rw [hfilter, hlast]
        simp [List.get?_eq_getElem?, hqj, hnz q hqmem]

/-- C8 (amended): the trend cache key embeds the providers in the order the
request lists them (`providers.join(",")`), so only calls listing the
provider set in the same order compute the same key; a permuted provider
list yields a different key for every `months` value and is therefore not
served from the other order's cache entry. -/
theorem trendsCacheKey_order_sensitive (months : Nat) :
    trendsCacheKey ["aws", "gcp"] none none months ≠
      trendsCacheKey ["gcp", "aws"] none none months := by
  intro h
  have h' : ("trends:aws,gcp:all:all:" ++ toString months) =
      ("trends:gcp,aws:all:all:" ++ toString months) := h
  have hd : ("trends:aws,gcp:all:all:").data ++ (toString months).data =
      ("trends:gcp,aws:all:all:").data ++ (toString months).data := by
    have hx := congrArg String.data h'
    simp only [String.data_append] at hx
    exact hx
  have h2 := congrArg List.reverse hd
  simp only [List.reverse_append] at h2
  have h3 := List.append_cancel_left h2
  have h4 : ("trends:aws,gcp:all:all:").data = ("trends:gcp,aws:all:all:").data := by
    have hx := congrArg List.reverse h3
    simp only [List.reverse_reverse] at hx
    exact hx
  exact absurd h4 (by decide)

theorem scanPromises_all (a z g : Except String ScanResult) :
    scanPromises ["aws", "azure", "gcp"] a z g = [a, z, g] := rfl

/-- C1: `POST /api/scan` over the three providers with exactly one adapter
rejecting returns (no exception escapes — the result is a total function of
the settled outcomes) `success = false`, assets exactly the concatenation of
the two fulfilled adapters' assets in fan-out order, and an `errors` list of
length 1. -/
theorem scanAll_one_failure (ra rz rg : Except String ScanResult) (now : String)
    (h : (∃ e s1 s2, ra = .error e ∧ rz = .ok s1 ∧ rg = .ok s2) ∨
         (∃ e s1 s2, rz = .error e ∧ ra = .ok s1 ∧ rg = .ok s2) ∨
         (∃ e s1 s2, rg = .error e ∧ ra = .ok s1 ∧ rz = .ok s2)) :
    (scanRoutePOST ["aws", "azure", "gcp"] ra rz rg now).success = false ∧
    (∃ s1 s2,
      (scanRoutePOST ["aws", "azure", "gcp"] ra rz rg now).assets =
        s1.assets ++ s2.assets ∧
      ((ra = .ok s1 ∧ rz = .ok s2) ∨ (ra = .ok s1 ∧ rg = .ok s2) ∨
       (rz = .ok s1 ∧ rg = .ok s2))) ∧
    (∃ l, (scanRoutePOST ["aws", "azure", "gcp"] ra rz rg now).errors = some l ∧
      l.length = 1) := by
  rcases h with ⟨e, s1, s2, rfl, rfl, rfl⟩ | ⟨e, s1, s2, rfl, rfl, rfl⟩ |
    ⟨e, s1, s2, rfl, rfl, rfl⟩
  · refine ⟨rfl, ⟨s1, s2, ?_, Or.inr (Or.inr ⟨rfl, rfl⟩)⟩, ⟨_, rfl, rfl⟩⟩
    show s1.assets ++ (s2.assets ++ []) = s1.assets ++ s2.assets
    simp
  · refine ⟨rfl, ⟨s1, s2, ?_, Or.inr (Or.inl ⟨rfl, rfl⟩)⟩, ⟨_, rfl, rfl⟩⟩
    show s1.assets ++ (s2.assets ++ []) = s1.assets ++ s2.assets
    simp
  · refine ⟨rfl, ⟨s1, s2, ?_, Or.inl ⟨rfl, rfl⟩⟩, ⟨_, rfl, rfl⟩⟩
    show s1.assets ++ (s2.assets ++ []) = s1.assets ++ s2.assets
    simp

/-- C10: a `POST /api/scan` whose providers list contains no recognized
provider id (recognition is exact lowercase match against "aws", "azure",
"gcp") invokes no adapter and responds `success = true` with empty assets,
`costSummary.totalCost = 0` and no `errors` field — indistinguishable from a
successful scan that found nothing. -/
theorem scanPOST_no_recognized_provider (providers : List String)
    (ra rz rg : Except String ScanResult) (now : String)
    (h1 : providers.contains "aws" = false)
    (h2 : providers.contains "azure" = false)
    (h3 : providers.contains "gcp" = false) :
    scanRoutePOST providers ra rz rg now =
      { success := true
        providers := []
        assets := []
        costSummary := { totalCost := 0
                         costByProvider := []
                         costByService := []
                         costByRegion := []
                         monthlyTrend := [(now.take 7, 0)] }
        errors := none } := by
  have e1 : scanPromises providers ra rz rg = [] := by
    simp only [scanPromises, h1, h2, h3, Bool.false_eq_true, if_false,
      List.append_nil]
  unfold scanRoutePOST
  rw [e1]
  rfl

/-! ## Concrete sample values for counterexamples and witnesses -/

/-- Sample fulfilled AWS scan with one asset. -/
def sampleScanA : ScanResult :=
  { provider := "AWS"
    assets := [{ id := "arn-1", service := "ec2", region := "us-east-1",
                 provider := "AWS", costThisMonth := 5 }]
    totalCost := 5
    costByService := [("ec2", 5)]
    costByRegion := [("us-east-1", 5)] }

/-- Sample fulfilled GCP scan with one asset. -/
def sampleScanB : ScanResult :=
  { provider := "GCP"
    assets := [{ id := "res-2", service := "storage", region := "europe-west1",
                 provider := "GCP", costThisMonth := 3 }]
    totalCost := 3
    costByService := [("storage", 3)]
    costByRegion := [("europe-west1", 3)] }

/-- C1 witness: azure rejects ("boom"), aws and gcp fulfill. -/
theorem scanAll_one_failure_witness :
    (scanRoutePOST ["aws", "azure", "gcp"] (.ok sampleScanA) (.error "boom")
        (.ok sampleScanB) "2025-08-15").success = false ∧
    (∃ s1 s2,
      (scanRoutePOST ["aws", "azure", "gcp"] (.ok sampleScanA) (.error "boom")
          (.ok sampleScanB) "2025-08-15").assets = s1.assets ++ s2.assets ∧
      (((.ok sampleScanA : Except String ScanResult) = .ok s1 ∧
          (.error "boom" : Except String ScanResult) = .ok s2) ∨
       ((.ok sampleScanA : Except String ScanResult) = .ok s1 ∧
          (.ok sampleScanB : Except String ScanResult) = .ok s2) ∨
       ((.error "boom" : Except String ScanResult) = .ok s1 ∧
          (.ok sampleScanB : Except String ScanResult) = .ok s2))) ∧
    (∃ l,
      (scanRoutePOST ["aws", "azure", "gcp"] (.ok sampleScanA) (.error "boom")
          (.ok sampleScanB) "2025-08-15").errors = some l ∧ l.length = 1) :=
  scanAll_one_failure (.ok sampleScanA) (.error "boom") (.ok sampleScanB)
    "2025-08-15"
    (Or.inr (Or.inl ⟨"boom", sampleScanA, sampleScanB, rfl, rfl, rfl⟩))

/-- C2 counterexample: the Azure adapter does not implement the claimed
formula.  With costByService = {"X/Y": 100} and one asset of service "X" and
resourceType "X/Y", the code assigns 100 to the asset (the lookup key is the
asset's resourceType), while `costByService[asset.service]` has no entry, so
the claimed formula yields 0. -/
theorem azureAssignCosts_counterexample :
    (azureAssignCosts [("X/Y", 100)]
        [{ id := "r1", service := "X", resourceType := "X/Y", region := "e",
           provider := "Azure" }]).map (·.costThisMonth) = [100] ∧
    ([{ id := "r1", service := "X", resourceType := "X/Y", region := "e",
        provider := "Azure" }] : List NAsset).map
      (specCostShare [("X/Y", 100)]
        [{ id := "r1", service := "X", resourceType := "X/Y", region := "e",
           provider := "Azure" }]) = [0] := by
  constructor
  · norm_num [azureAssignCosts, assetCountByService, jsGet, jsBump, jsCount,
      List.find?]
  · norm_num [specCostShare, jsGet, List.find?,
      show ("X/Y" == "X") = false from rfl]

/-- Trend rows of two providers, month-ordered, as the grouped query returns
them. -/
def trendRowsEx : List TrendRow :=
  [{ provider := "AWS", month := 1, totalCost := 100 },
   { provider := "GCP", month := 1, totalCost := 200 },
   { provider := "AWS", month := 2, totalCost := 150 }]

/-- C3 counterexample: with two providers in the result, the code's
percentChange uses the flat previous row: the first GCP row gets 100
(previous flat row is AWS's 100) where the claim demands 0 (first row of
GCP's series), and the second AWS row gets -25 (previous flat row is GCP's
200) where the claim demands 50 (previous AWS row is 100). -/
theorem percentChanges_counterexample :
    percentChanges trendRowsEx = [0, 100, -25] ∧
    specPercentChanges trendRowsEx = [0, 0, 50] := by
  constructor
  · norm_num [percentChanges, trendRowsEx, List.enum, List.enumFrom]
  · norm_num [specPercentChanges, trendRowsEx, List.enum, List.enumFrom,
      List.find?, show "AWS" ≠ "GCP" from by decide,
      show ("AWS" == "GCP") = false from rfl,
      show ("GCP" == "AWS") = false from rfl,
      show ("AWS" == "AWS") = true from rfl]

/-- Month-ordered single-provider trend rows with totals 100, 150, 120. -/
def singleProviderRowsEx : List TrendRow :=
  [{ provider := "AWS", month := 1, totalCost := 100 },
   { provider := "AWS", month := 2, totalCost := 150 },
   { provider := "AWS", month := 3, totalCost := 120 }]

/-- C3 witness: for the single-provider series [100, 150, 120] the hypotheses
hold, the computed sequence matches the per-provider rule, and it equals
[0, 50, -20]. -/
theorem percentChanges_single_provider_witness :
    percentChanges singleProviderRowsEx =
      specPercentChanges singleProviderRowsEx ∧
    percentChanges singleProviderRowsEx = [0, 50, -20] := by
  constructor
  · exact percentChanges_single_provider singleProviderRowsEx "AWS"
      (by decide) (by norm_num [singleProviderRowsEx])
  · norm_num [percentChanges, singleProviderRowsEx, List.enum, List.enumFrom]

/-- C4 counterexample: the EC2 listing SDK call fails ("AccessDenied"), yet
`AWSConnector.scanAssets` fulfills, with the S3-derived asset — a partial
asset list and no error, contradicting "the whole adapter call fails with a
single typed error and returns no partial asset list". -/
theorem scanAssets_partial_counterexample :
    AWSConnector.scanAssets "us-east-1" (.error "AccessDenied")
        (fun _ => .ok []) (.ok [{ name := some "b1" }]) (fun _ => .ok []) =
      .ok [{ id := "b1", provider := "AWS", service := "S3",
             region := "us-east-1", resourceId := "b1", tags := [],
             connectedAssets := [] }] := rfl

/-- Raw GCP asset with no asset type and no location. -/
def gcpRawEx : GCPRawAsset :=
  { name := "a", assetType := none, location := none, labels := [] }

/-- The normalized form of `gcpRawEx` with attributed cost 0. -/
def gcpAssetEx : NAsset :=
  { id := "a", service := "unknown", resourceType := "unknown",
    region := "global", tags := [], provider := "GCP", costThisMonth := 0 }

/-- The scan-history row the GCP adapter persists for `gcpAssetEx`. -/
def gcpRowEx : ScanRow :=
  { provider := "GCP", region := "global", service := "unknown",
    resourceId := "a", costThisMonth := 0, tags := [], scanType := "manual",
    scannedAt := 0 }

/-- The ScanResult of the GCP adapter on `gcpRawEx` with no billing rows. -/
def gcpResEx : ScanResult :=
  { provider := "GCP", assets := [gcpAssetEx], totalCost := 0,
    costByService := [], costByRegion := [] }

/-- C5 counterexample: a successful GCP adapter scan started on the empty
scan-history store leaves the store non-empty — the adapter wrote the row
itself, with no separate Persistence Writer invocation by the caller. -/
theorem gcpScan_writes_counterexample :
    fetchGCPAssetsAndCosts (some "p") (.ok [gcpRawEx]) (.ok ⟨some "acct"⟩)
        (.ok []) 0 [] = .ok (gcpResEx, [gcpRowEx]) ∧
    ([gcpRowEx] : ScanStore) ≠ [] := by
  exact ⟨rfl, by decide⟩

/-- C5 witness: concrete successful runs of all three fetch adapters — the
GCP run on `gcpRawEx` plus empty Azure and AWS runs. -/
theorem adapters_write_store_witness :
    ([gcpRowEx] : ScanStore) =
      saveScanResults "GCP" gcpResEx.assets "manual" 0 [] ∧
    ([] : ScanStore) =
      saveScanResults "Azure"
        ({ provider := "Azure", assets := [], totalCost := 0,
           costByService := [], costByRegion := [] } : ScanResult).assets
        "manual" 0 [] ∧
    ([] : ScanStore) =
      saveScanResults "AWS"
        ({ provider := "AWS", assets := [], totalCost := 0,
           costByService := [], costByRegion := [] } : ScanResult).assets
        "manual" 0 [] :=
  adapters_write_store (some "p") (.ok [gcpRawEx]) (.ok ⟨some "acct"⟩) (.ok [])
    0 [] gcpResEx [gcpRowEx]
    ⟨some "c", some "s", some "t", some "u"⟩ (.ok []) (.ok []) 0 []
    { provider := "Azure", assets := [], totalCost := 0, costByService := [],
      costByRegion := [] } []
    ⟨some "k", some "s"⟩ (.ok []) (.ok { totalAmount := 0, groups := [] }) 0 []
    { provider := "AWS", assets := [], totalCost := 0, costByService := [],
      costByRegion := [] } []
    rfl rfl rfl

/-- C6 counterexample: an AWS adapter run whose vendor-reported month total
(999) differs from the sum of the costByService values (10): the invariant
`abs(totalCost - sum(costByService.values())) < epsilon` fails already for
epsilon = 1 (the difference is 989). -/
theorem awsTotalCost_counterexample :
    fetchAWSAssetsAndCosts ⟨some "k", some "s"⟩ (.ok [])
        (.ok { totalAmount := 999,
               groups := [{ keys := ["svc", "reg"], amount := 10 }] }) 0 [] =
      .ok ({ provider := "AWS", assets := [], totalCost := 999,
             costByService := [("svc", 10)], costByRegion := [("reg", 10)] },
           []) ∧
    ¬ |(999 : ℚ) - valuesSum [("svc", (10 : ℚ))]| < 1 := by
  refine ⟨rfl, ?_⟩
  norm_num [valuesSum]

/-- The ScanResult of a GCP adapter run with no assets and no billing rows. -/
def gcpResEmptyEx : ScanResult :=
  { provider := "GCP", assets := [], totalCost := 0, costByService := [],
    costByRegion := [] }

/-- The ScanResult of an Azure adapter run with no resources and no rows. -/
def azureResEmptyEx : ScanResult :=
  { provider := "Azure", assets := [], totalCost := 0, costByService := [],
    costByRegion := [] }

/-- C6 witness: concrete successful GCP and Azure runs satisfying
`totalCost = sum(costByService.values())`. -/
theorem totalCost_eq_valuesSum_witness :
    gcpResEmptyEx.totalCost = valuesSum gcpResEmptyEx.costByService ∧
    azureResEmptyEx.totalCost = valuesSum azureResEmptyEx.costByService :=
  totalCost_eq_valuesSum (some "p") (.ok []) (.ok ⟨some "acct"⟩) (.ok []) 0 []
    gcpResEmptyEx [] ⟨some "c", some "s", some "t", some "u"⟩ (.ok []) (.ok [])
    0 [] azureResEmptyEx [] rfl rfl

/-- C8 counterexample: the same provider set listed in two different orders
computes two different cache keys, so the second call is not served from the
first call's cache entry. -/
theorem trendsCacheKey_counterexample :
    trendsCacheKey ["aws", "gcp"] none none 6 ≠
      trendsCacheKey ["gcp", "aws"] none none 6 := by
  decide

/-- C8 witness: the order-sensitivity theorem applied at months = 7. -/
theorem trendsCacheKey_order_sensitive_witness :
    trendsCacheKey ["aws", "gcp"] none none 7 ≠
      trendsCacheKey ["gcp", "aws"] none none 7 :=
  trendsCacheKey_order_sensitive 7

/-- Raw GCP asset whose normalized service is "unknown". -/
def gcpNegRawEx : GCPRawAsset :=
  { name := "vm1", assetType := none, location := none, labels := [] }

/-- The asset produced from `gcpNegRawEx` after a -10 billing row on its
service: its attributed cost is negative. -/
def gcpNegAssetEx : NAsset :=
  { id := "vm1", service := "unknown", resourceType := "unknown",
    region := "global", tags := [], provider := "GCP", costThisMonth := -10 }

/-- The scan-history row persisted for `gcpNegAssetEx`. -/
def gcpNegRowEx : ScanRow :=
  { provider := "GCP", region := "global", service := "unknown",
    resourceId := "vm1", costThisMonth := -10, tags := [],
    scanType := "manual", scannedAt := 0 }

/-- The ScanResult of the GCP adapter on `gcpNegRawEx` with one -10 row. -/
def gcpNegResEx : ScanResult :=
  { provider := "GCP", assets := [gcpNegAssetEx], totalCost := -10,
    costByService := [("unknown", -10)], costByRegion := [("unknown", -10)] }

/-- C9 counterexample: both invariants fail on reachable inputs.  A billing
row with a negative amount (a -10 credit) flows through the GCP adapter into
an AssetRecord with `costThisMonth = -10 < 0`; and an S3 bucket named
exactly like an EC2 instance id ("x") makes `AWSConnector.scanAssets`
produce an instance whose `connectedAssets` contains its own id — a
self-loop. -/
theorem assetRecord_invariants_counterexample :
    fetchGCPAssetsAndCosts (some "p") (.ok [gcpNegRawEx]) (.ok ⟨some "acct"⟩)
        (.ok [{ service := some "unknown", location := none, amount := -10 }])
        0 [] = .ok (gcpNegResEx, [gcpNegRowEx]) ∧
    gcpNegAssetEx.costThisMonth < 0 ∧
    AWSConnector.scanAssets "r2" (.ok [{ instanceId := some "x" }])
        (fun _ => .ok []) (.ok [{ name := some "x" }]) (fun _ => .ok []) =
      .ok [{ id := "x", provider := "AWS", service := "EC2", region := "r2",
             resourceId := "x", tags := [], connectedAssets := ["x"] },
           { id := "x", provider := "AWS", service := "S3", region := "r2",
             resourceId := "x", tags := [], connectedAssets := [] }] ∧
    ("x" : String) ∈ ["x"] := by
  refine ⟨?_, ?_, rfl, by decide⟩
  · norm_num [fetchGCPAssetsAndCosts, gcpNormalizeAsset, gcpProcessCosts,
      gcpCostStep, gcpAssignCosts, assetCountByService, saveScanResults,
      toScanRow, insertRow, keyMem, rowKey, jsGet, jsAdd, jsBump, jsCount,
      List.find?, gcpNegRawEx, gcpNegAssetEx, gcpNegRowEx, gcpNegResEx,
      show ¬ ("global" = "") from by decide,
      show ¬ ("vm1" = "") from by decide]
  · norm_num [gcpNegAssetEx]

/-- Connector asset records of a one-instance, one-bucket AWS scan. -/
def awsEC2AssetEx : CloudAsset :=
  { id := "i1", provider := "AWS", service := "EC2", region := "r",
    resourceId := "i1", tags := [], connectedAssets := ["b1"] }

/-- The S3 asset of the same scan. -/
def awsS3AssetEx : CloudAsset :=
  { id := "b1", provider := "AWS", service := "S3", region := "r",
    resourceId := "b1", tags := [], connectedAssets := [] }

/-- C9 witness: the invariants theorem applied to concrete runs of the three
fetch adapters (all billing amounts non-negative) and a concrete AWS
connector scan with distinct asset ids. -/
theorem assetRecord_invariants_witness :
    (0 : ℚ) ≤ gcpAssetEx.costThisMonth ∧
    awsEC2AssetEx.id ∉ awsEC2AssetEx.connectedAssets :=
  ⟨(assetRecord_invariants (some "p") (.ok [gcpRawEx]) (.ok ⟨some "acct"⟩) []
      0 [] gcpResEx [gcpRowEx]
      ⟨some "c", some "s", some "t", some "u"⟩ (.ok []) [] 0 []
      { provider := "Azure", assets := [], totalCost := 0, costByService := [],
        costByRegion := [] } []
      ⟨some "k", some "s"⟩ (.ok []) { totalAmount := 0, groups := [] } 0 []
      { provider := "AWS", assets := [], totalCost := 0, costByService := [],
        costByRegion := [] } []
      "r" (.ok [{ instanceId := some "i1" }])
      (fun _ => .ok []) (.ok [{ name := some "b1" }]) (fun _ => .ok [])
      [awsEC2AssetEx, awsS3AssetEx] rfl (by simp) rfl (by simp) rfl (by simp)
      rfl (by decide)).1 gcpAssetEx (by decide),
   (assetRecord_invariants (some "p") (.ok [gcpRawEx]) (.ok ⟨some "acct"⟩) []
      0 [] gcpResEx [gcpRowEx]
      ⟨some "c", some "s", some "t", some "u"⟩ (.ok []) [] 0 []
      { provider := "Azure", assets := [], totalCost := 0, costByService := [],
        costByRegion := [] } []
      ⟨some "k", some "s"⟩ (.ok []) { totalAmount := 0, groups := [] } 0 []
      { provider := "AWS", assets := [], totalCost := 0, costByService := [],
        costByRegion := [] } []
      "r" (.ok [{ instanceId := some "i1" }])
      (fun _ => .ok []) (.ok [{ name := some "b1" }]) (fun _ => .ok [])
      [awsEC2AssetEx, awsS3AssetEx] rfl (by simp) rfl (by simp) rfl (by simp)
      rfl (by decide)).2.2.2 awsEC2AssetEx (by decide)⟩

/-- C10 witness: `["AWS"]` (wrong case) is not recognized, so no adapter runs
and the response is the empty success response. -/
theorem scanPOST_no_recognized_provider_witness :
    scanRoutePOST ["AWS"] (.ok sampleScanA) (.error "x") (.ok sampleScanB)
        "2025-08-15T00:00:00Z" =
      { success := true
        providers := []
        assets := []
        costSummary := { totalCost := 0
                         costByProvider := []
                         costByService := []
                         costByRegion := []
                         monthlyTrend :=
                           [(("2025-08-15T00:00:00Z" : String).take 7, 0)] }
        errors := none } :=
  scanPOST_no_recognized_provider ["AWS"] (.ok sampleScanA) (.error "x")
    (.ok sampleScanB) "2025-08-15T00:00:00Z" rfl rfl rfl
